import Mathlib

/-!
Shallow embedding of the asset-ledger runtime module (`runtime/src/ibchain.rs`).

Machine integers (`u64`) are modelled as `Nat` together with explicit
checked arithmetic against `2^64`; storage maps are modelled as total
functions with the Substrate defaults (`0`, `none`, default record), and
maps whose `exists` is consulted by the code are modelled with `Option`.
Each dispatchable is a function from a pre-state to a result paired with a
post-state; state updates are threaded in the exact order of the source's
writes, after all of the source's checks, so that atomicity on the error
path is a provable property rather than a modelling assumption.  Error
values are the verbatim error strings of the source.
-/

/-- `T::Hash`, modelled as a natural number. -/
abbrev AHash := Nat

/-- `T::AccountId`, modelled as a natural number. -/
abbrev Account := Nat

/-- `2^64`, the number of values of `u64`. -/
def U64LIMIT : Nat := 2 ^ 64

/-- `u64::checked_add`: `some (a + b)` unless the sum leaves the `u64` range. -/
def checked_add (a b : Nat) : Option Nat :=
  if a + b < U64LIMIT then some (a + b) else none

/-- `u64::checked_sub`: `some (a - b)` unless `b > a`. -/
def checked_sub (a b : Nat) : Option Nat :=
  if b ≤ a then some (a - b) else none

/-- Point update of a map modelled as a total function (a storage `insert`). -/
def upd {κ α : Type} [DecidableEq κ] (f : κ → α) (k : κ) (v : α) : κ → α :=
  fun x => if x = k then v else f x

/-- The `Asset<Hash>` struct: id, name (byte vector), and the
reissue flag (source field `open`, renamed because `open` is a Lean keyword). -/
structure Asset where
  id : AHash
  name : List Nat
  opn : Bool
deriving DecidableEq, Inhabited

/-- The events of `decl_event!`. -/
inductive LedgerEvent : Type
  | Issued : Account → AHash → LedgerEvent
  | IssuedMore : Account → AHash → Nat → LedgerEvent
  | SentAsset : Account → Account → AHash → Nat → LedgerEvent
deriving DecidableEq

/-- The storage items of `decl_storage!` plus the deposited events.
Maps on which the code calls `exists` (`Assets`, `AssetOwner`,
`MyAssetsIndex`) carry `Option` values; the rest return the Substrate
default (`0`) when absent. -/
structure LedgerState where
  assets : AHash → Option Asset
  assetOwner : AHash → Option Account
  allAssetsArray : Nat → AHash
  allAssetsCount : Nat
  allAssetsIndex : AHash → Nat
  ownedAssetsArray : Account × Nat → AHash
  ownedAssetsCount : Account → Nat
  ownedAssetsIndex : AHash → Nat
  totalIssuedAssets : AHash → Nat
  nonce : Nat
  myAssetsArray : Account × Nat → AHash
  myAssetsCount : Account → Nat
  myAssetsIndex : Account × AHash → Option Nat
  myAssetBalances : Account × AHash → Nat
  events : List LedgerEvent

/-- The genesis storage: every map empty, every value at its default. -/
def emptyState : LedgerState where
  assets := fun _ => none
  assetOwner := fun _ => none
  allAssetsArray := fun _ => 0
  allAssetsCount := 0
  allAssetsIndex := fun _ => 0
  ownedAssetsArray := fun _ => 0
  ownedAssetsCount := fun _ => 0
  ownedAssetsIndex := fun _ => 0
  totalIssuedAssets := fun _ => 0
  nonce := 0
  myAssetsArray := fun _ => 0
  myAssetsCount := fun _ => 0
  myAssetsIndex := fun _ => none
  myAssetBalances := fun _ => 0
  events := []

/-- Identifier derivation of `issue`:
`(random_seed, &sender, nonce).using_encoded(Hashing::hash)`.
The hash itself is an external collaborator of the module (the runtime's
`Hashing`); it is modelled as a fixed deterministic function of the encoded
triple, here an injective pairing of the three inputs. -/
def allocateId (seed : Nat) (sender : Account) (nonce : Nat) : AHash :=
  Nat.pair seed (Nat.pair sender nonce)

/-- `fn issue(origin, name, issue_qty, open)`.  `sender` is the
already-authenticated caller (`ensure_signed`), `seed` the block randomness
`random_seed()`.  Checks and writes appear in source order. -/
def issue (seed : Nat) (sender : Account) (name : List Nat) (issueQty : Nat)
    (opn : Bool) (s : LedgerState) : Except String Unit × LedgerState :=
  let ownedAssetCount := s.ownedAssetsCount sender
  match checked_add ownedAssetCount 1 with
  | none => (.error "Overflow adding a new Asset to account balance", s)
  | some newOwnedAssetCount =>
    let allAssetCount := s.allAssetsCount
    match checked_add allAssetCount 1 with
    | none => (.error "Overflow adding a new Asset to total supply", s)
    | some newAllAssetCount =>
      let nonce := s.nonce
      let randomHash := allocateId seed sender nonce
      if (s.assetOwner randomHash).isSome then
        (.error "Asset already exists", s)
      else
        let newAsset : Asset := { id := randomHash, name := name, opn := opn }
        let myAssetCount := s.myAssetsCount sender
        match checked_add myAssetCount 1 with
        | none => (.error "Overflow adding a new My Asset to total supply", s)
        | some newMyAssetCount =>
          let s := { s with assets := upd s.assets randomHash (some newAsset) }
          let s := { s with assetOwner := upd s.assetOwner randomHash (some sender) }
          let s := { s with allAssetsArray := upd s.allAssetsArray allAssetCount randomHash }
          let s := { s with allAssetsCount := newAllAssetCount }
          let s := { s with allAssetsIndex := upd s.allAssetsIndex randomHash allAssetCount }
          let s := { s with ownedAssetsArray := upd s.ownedAssetsArray (sender, ownedAssetCount) randomHash }
          let s := { s with ownedAssetsCount := upd s.ownedAssetsCount sender newOwnedAssetCount }
          let s := { s with ownedAssetsIndex := upd s.ownedAssetsIndex randomHash ownedAssetCount }
          let s := { s with totalIssuedAssets := upd s.totalIssuedAssets randomHash issueQty }
          let s := { s with nonce := (s.nonce + 1) % U64LIMIT }
          let s := { s with myAssetsArray := upd s.myAssetsArray (sender, myAssetCount) randomHash }
          let s := { s with myAssetsCount := upd s.myAssetsCount sender newMyAssetCount }
          let s := { s with myAssetsIndex := upd s.myAssetsIndex (sender, randomHash) (some myAssetCount) }
          let s := { s with myAssetBalances := upd s.myAssetBalances (sender, randomHash) issueQty }
          let s := { s with events := LedgerEvent.Issued sender randomHash :: s.events }
          (.ok (), s)

/-- `fn issuemore(origin, asset_id, issue_qty)`.  Checks (exists, owner,
open, two checked additions) in source order, then the two writes. -/
def issuemore (sender : Account) (assetId : AHash) (issueQty : Nat)
    (s : LedgerState) : Except String Unit × LedgerState :=
  if (s.assets assetId).isSome then
    match s.assetOwner assetId with
    | none => (.error "No owner for this asset", s)
    | some owner =>
      if owner = sender then
        let asset := (s.assets assetId).getD default
        if asset.opn = true then
          let totalIssuedAsset := s.totalIssuedAssets assetId
          match checked_add totalIssuedAsset issueQty with
          | none => (.error "Overflow adding a new Asset", s)
          | some newTotalIssuedAsset =>
            let myAssetBalance := s.myAssetBalances (sender, assetId)
            match checked_add myAssetBalance issueQty with
            | none => (.error "Overflow adding a new Asset", s)
            | some newMyAssetBalance =>
              let s := { s with totalIssuedAssets := upd s.totalIssuedAssets assetId newTotalIssuedAsset }
              let s := { s with myAssetBalances := upd s.myAssetBalances (sender, assetId) newMyAssetBalance }
              let s := { s with events := LedgerEvent.IssuedMore sender assetId issueQty :: s.events }
              (.ok (), s)
        else (.error "You can not issue more", s)
      else (.error "You do not own this asset", s)
  else (.error "This asset does not exist", s)

/-- `fn sendasset(origin, toAcct, asset_id, qty)`.  The recipient's balance is
read before any write (`0` when the recipient has no holding index entry);
the two write branches mirror the source's `if !flg { .. } else { .. }`. -/
def sendasset (sender toAcct : Account) (assetId : AHash) (qty : Nat)
    (s : LedgerState) : Except String Unit × LedgerState :=
  if (s.myAssetsIndex (sender, assetId)).isSome then
    let myAssetBalance := s.myAssetBalances (sender, assetId)
    if myAssetBalance ≥ qty then
      let flg := (s.myAssetsIndex (toAcct, assetId)).isSome
      let toAssetBalance := if flg then s.myAssetBalances (toAcct, assetId) else 0
      match checked_sub myAssetBalance qty with
      | none => (.error "Your asset is less than you want to send the amount.", s)
      | some newMyAssetBalance =>
        match checked_add toAssetBalance qty with
        | none => (.error "Overflow adding (to)'s asset", s)
        | some newToAssetBalance =>
          if flg = false then
            let toAssetCount := s.myAssetsCount toAcct
            match checked_add toAssetCount 1 with
            | none => (.error "Overflow adding a new My Asset to total supply", s)
            | some newToAssetCount =>
              let s := { s with myAssetBalances := upd s.myAssetBalances (sender, assetId) newMyAssetBalance }
              let s := { s with myAssetsArray := upd s.myAssetsArray (toAcct, toAssetCount) assetId }
              let s := { s with myAssetsCount := upd s.myAssetsCount toAcct newToAssetCount }
              let s := { s with myAssetsIndex := upd s.myAssetsIndex (toAcct, assetId) (some toAssetCount) }
              let s := { s with myAssetBalances := upd s.myAssetBalances (toAcct, assetId) newToAssetBalance }
              let s := { s with events := LedgerEvent.SentAsset sender toAcct assetId qty :: s.events }
              (.ok (), s)
          else
            let s := { s with myAssetBalances := upd s.myAssetBalances (sender, assetId) newMyAssetBalance }
            let s := { s with myAssetBalances := upd s.myAssetBalances (toAcct, assetId) newToAssetBalance }
            let s := { s with events := LedgerEvent.SentAsset sender toAcct assetId qty :: s.events }
            (.ok (), s)
    else (.error "Your asset is less than you want to send the amount.", s)
  else (.error "This asset does not exist", s)

/-- A dispatched call to one of the three handlers. -/
inductive Call : Type
  | issue : Nat → Account → List Nat → Nat → Bool → Call
  | issuemore : Account → AHash → Nat → Call
  | sendasset : Account → Account → AHash → Nat → Call

/-- Dispatch one call against a state. -/
def step (c : Call) (s : LedgerState) : Except String Unit × LedgerState :=
  match c with
  | .issue seed sender name qty opn => issue seed sender name qty opn s
  | .issuemore sender assetId qty => issuemore sender assetId qty s
  | .sendasset sender toAcct assetId qty => sendasset sender toAcct assetId qty s

/-- Run a sequence of calls, keeping the post-state of every call
(successful or not). -/
def runCalls (cs : List Call) (s : LedgerState) : LedgerState :=
  cs.foldl (fun s c => (step c s).snd) s

/-! ### Basic lemmas about point updates -/

lemma upd_same {κ α : Type} [DecidableEq κ] (f : κ → α) (k : κ) (v : α) :
    upd f k v k = v := by
  simp [upd]

lemma upd_ne {κ α : Type} [DecidableEq κ] (f : κ → α) (k : κ) (v : α) (x : κ)
    (h : x ≠ k) : upd f k v x = f x := by
  simp [upd, h]

/-! ### Success characterizations of the three handlers -/

/-- The post-state of a successful `issue`, written out field by field. -/
def issuePost (seed : Nat) (sender : Account) (name : List Nat) (issueQty : Nat)
    (opn : Bool) (s : LedgerState) : LedgerState :=
  let rh := allocateId seed sender s.nonce
  { s with
    assets := upd s.assets rh (some { id := rh, name := name, opn := opn })
    assetOwner := upd s.assetOwner rh (some sender)
    allAssetsArray := upd s.allAssetsArray s.allAssetsCount rh
    allAssetsCount := s.allAssetsCount + 1
    allAssetsIndex := upd s.allAssetsIndex rh s.allAssetsCount
    ownedAssetsArray := upd s.ownedAssetsArray (sender, s.ownedAssetsCount sender) rh
    ownedAssetsCount := upd s.ownedAssetsCount sender (s.ownedAssetsCount sender + 1)
    ownedAssetsIndex := upd s.ownedAssetsIndex rh (s.ownedAssetsCount sender)
    totalIssuedAssets := upd s.totalIssuedAssets rh issueQty
    nonce := (s.nonce + 1) % U64LIMIT
    myAssetsArray := upd s.myAssetsArray (sender, s.myAssetsCount sender) rh
    myAssetsCount := upd s.myAssetsCount sender (s.myAssetsCount sender + 1)
    myAssetsIndex := upd s.myAssetsIndex (sender, rh) (some (s.myAssetsCount sender))
    myAssetBalances := upd s.myAssetBalances (sender, rh) issueQty
    events := LedgerEvent.Issued sender rh :: s.events }

lemma issue_ok (seed : Nat) (sender : Account) (name : List Nat) (issueQty : Nat)
    (opn : Bool) (s : LedgerState)
    (h1 : s.ownedAssetsCount sender + 1 < U64LIMIT)
    (h2 : s.allAssetsCount + 1 < U64LIMIT)
    (h3 : s.assetOwner (allocateId seed sender s.nonce) = none)
    (h4 : s.myAssetsCount sender + 1 < U64LIMIT) :
    issue seed sender name issueQty opn s =
      (Except.ok (), issuePost seed sender name issueQty opn s) := by
  simp [issue, issuePost, checked_add, h1, h2, h3, h4]

lemma issue_fst_ok (seed : Nat) (sender : Account) (name : List Nat)
    (issueQty : Nat) (opn : Bool) (s : LedgerState)
    (h : (issue seed sender name issueQty opn s).fst = Except.ok ()) :
    s.ownedAssetsCount sender + 1 < U64LIMIT ∧
      s.allAssetsCount + 1 < U64LIMIT ∧
      s.assetOwner (allocateId seed sender s.nonce) = none ∧
      s.myAssetsCount sender + 1 < U64LIMIT := by
  by_cases h1 : s.ownedAssetsCount sender + 1 < U64LIMIT
  · by_cases h2 : s.allAssetsCount + 1 < U64LIMIT
    · by_cases h3 : (s.assetOwner (allocateId seed sender s.nonce)).isSome
      · exfalso; simp [issue, checked_add, h1, h2, h3] at h
      · by_cases h4 : s.myAssetsCount sender + 1 < U64LIMIT
        · exact ⟨h1, h2, Option.not_isSome_iff_eq_none.mp h3, h4⟩
        · exfalso; simp [issue, checked_add, h1, h2, h3, h4] at h
    · exfalso; simp [issue, checked_add, h1, h2] at h
  · exfalso; simp [issue, checked_add, h1] at h

/-- The post-state of a successful `issuemore`. -/
def issuemorePost (sender : Account) (assetId : AHash) (issueQty : Nat)
    (s : LedgerState) : LedgerState :=
  { s with
    totalIssuedAssets := upd s.totalIssuedAssets assetId (s.totalIssuedAssets assetId + issueQty)
    myAssetBalances := upd s.myAssetBalances (sender, assetId)
      (s.myAssetBalances (sender, assetId) + issueQty)
    events := LedgerEvent.IssuedMore sender assetId issueQty :: s.events }

lemma issuemore_ok (sender : Account) (assetId : AHash) (issueQty : Nat)
    (s : LedgerState)
    (h1 : (s.assets assetId).isSome = true)
    (h2 : s.assetOwner assetId = some sender)
    (h3 : ((s.assets assetId).getD default).opn = true)
    (h4 : s.totalIssuedAssets assetId + issueQty < U64LIMIT)
    (h5 : s.myAssetBalances (sender, assetId) + issueQty < U64LIMIT) :
    issuemore sender assetId issueQty s =
      (Except.ok (), issuemorePost sender assetId issueQty s) := by
  simp [issuemore, issuemorePost, checked_add, h1, h2, h3, h4, h5]

lemma issuemore_fst_ok (sender : Account) (assetId : AHash) (issueQty : Nat)
    (s : LedgerState)
    (h : (issuemore sender assetId issueQty s).fst = Except.ok ()) :
    (s.assets assetId).isSome = true ∧
      s.assetOwner assetId = some sender ∧
      ((s.assets assetId).getD default).opn = true ∧
      s.totalIssuedAssets assetId + issueQty < U64LIMIT ∧
      s.myAssetBalances (sender, assetId) + issueQty < U64LIMIT := by
  by_cases h1 : (s.assets assetId).isSome = true
  · rcases h2 : s.assetOwner assetId with _ | owner
    · exfalso; simp [issuemore, h1, h2] at h
    · by_cases h2' : owner = sender
      · subst h2'
        by_cases h3 : ((s.assets assetId).getD default).opn = true
        · by_cases h4 : s.totalIssuedAssets assetId + issueQty < U64LIMIT
          · by_cases h5 : s.myAssetBalances (owner, assetId) + issueQty < U64LIMIT
            · exact ⟨h1, rfl, h3, h4, h5⟩
            · exfalso; simp [issuemore, checked_add, h1, h2, h3, h4, h5] at h
          · exfalso; simp [issuemore, checked_add, h1, h2, h3, h4] at h
        · exfalso; simp [issuemore, h1, h2, h3] at h
      · exfalso; simp [issuemore, h1, h2, h2'] at h
  · exfalso; simp [issuemore, h1] at h

/-- The post-state of a successful `sendasset` when the recipient already has
a holding index entry for the asset (`flg = true`). -/
def sendassetPostExisting (sender toAcct : Account) (assetId : AHash) (qty : Nat)
    (s : LedgerState) : LedgerState :=
  { s with
    myAssetBalances :=
      upd (upd s.myAssetBalances (sender, assetId) (s.myAssetBalances (sender, assetId) - qty))
        (toAcct, assetId) (s.myAssetBalances (toAcct, assetId) + qty)
    events := LedgerEvent.SentAsset sender toAcct assetId qty :: s.events }

/-- The post-state of a successful `sendasset` when the recipient has no
holding index entry for the asset (`flg = false`). -/
def sendassetPostNew (sender toAcct : Account) (assetId : AHash) (qty : Nat)
    (s : LedgerState) : LedgerState :=
  { s with
    myAssetBalances :=
      upd (upd s.myAssetBalances (sender, assetId) (s.myAssetBalances (sender, assetId) - qty))
        (toAcct, assetId) (0 + qty)
    myAssetsArray := upd s.myAssetsArray (toAcct, s.myAssetsCount toAcct) assetId
    myAssetsCount := upd s.myAssetsCount toAcct (s.myAssetsCount toAcct + 1)
    myAssetsIndex := upd s.myAssetsIndex (toAcct, assetId) (some (s.myAssetsCount toAcct))
    events := LedgerEvent.SentAsset sender toAcct assetId qty :: s.events }

lemma sendasset_ok_existing (sender toAcct : Account) (assetId : AHash) (qty : Nat)
    (s : LedgerState)
    (h1 : (s.myAssetsIndex (sender, assetId)).isSome = true)
    (h2 : qty ≤ s.myAssetBalances (sender, assetId))
    (h3 : (s.myAssetsIndex (toAcct, assetId)).isSome = true)
    (h4 : s.myAssetBalances (toAcct, assetId) + qty < U64LIMIT) :
    sendasset sender toAcct assetId qty s =
      (Except.ok (), sendassetPostExisting sender toAcct assetId qty s) := by
  simp [sendasset, sendassetPostExisting, checked_add, checked_sub, h1, h2, h3, h4]

lemma sendasset_ok_new (sender toAcct : Account) (assetId : AHash) (qty : Nat)
    (s : LedgerState)
    (h1 : (s.myAssetsIndex (sender, assetId)).isSome = true)
    (h2 : qty ≤ s.myAssetBalances (sender, assetId))
    (h3 : (s.myAssetsIndex (toAcct, assetId)).isSome = false)
    (h4 : qty < U64LIMIT)
    (h5 : s.myAssetsCount toAcct + 1 < U64LIMIT) :
    sendasset sender toAcct assetId qty s =
      (Except.ok (), sendassetPostNew sender toAcct assetId qty s) := by
  simp [sendasset, sendassetPostNew, checked_add, checked_sub, h1, h2, h3, h4, h5]

lemma sendasset_fst_ok (sender toAcct : Account) (assetId : AHash) (qty : Nat)
    (s : LedgerState)
    (h : (sendasset sender toAcct assetId qty s).fst = Except.ok ()) :
    (s.myAssetsIndex (sender, assetId)).isSome = true ∧
      qty ≤ s.myAssetBalances (sender, assetId) ∧
      ((if (s.myAssetsIndex (toAcct, assetId)).isSome = true
          then s.myAssetBalances (toAcct, assetId) else 0) + qty < U64LIMIT) ∧
      ((s.myAssetsIndex (toAcct, assetId)).isSome = false →
        s.myAssetsCount toAcct + 1 < U64LIMIT) := by
  by_cases h1 : (s.myAssetsIndex (sender, assetId)).isSome = true
  · by_cases h2 : qty ≤ s.myAssetBalances (sender, assetId)
    · by_cases h3 : (s.myAssetsIndex (toAcct, assetId)).isSome = true
      · by_cases h4 : s.myAssetBalances (toAcct, assetId) + qty < U64LIMIT
        · refine ⟨h1, h2, ?_, ?_⟩
          · simpa [h3] using h4
          · intro hcontra; simp [h3] at hcontra
        · exfalso; simp [sendasset, checked_add, checked_sub, h1, h2, h3, h4] at h
      · by_cases h4 : qty < U64LIMIT
        · by_cases h5 : s.myAssetsCount toAcct + 1 < U64LIMIT
          · refine ⟨h1, h2, ?_, fun _ => h5⟩
            simpa [h3] using h4
          · exfalso
            simp [sendasset, checked_add, checked_sub, h1, h2, h3, h4, h5] at h
        · exfalso; simp [sendasset, checked_add, checked_sub, h1, h2, h3, h4] at h
    · exfalso; simp [sendasset, h1, h2] at h
  · exfalso; simp [sendasset, h1] at h

/-! ### Concrete scenario states -/

/-- A one-asset ledger: account 0 issued asset `allocateId 5 0 0 = 30` with
quantity 100, open for reissue. -/
def sOpen : LedgerState := (issue 5 0 [] 100 true emptyState).snd

/-- Same one-asset ledger, but the asset was created with `open = false`. -/
def sClosed : LedgerState := (issue 5 0 [] 100 false emptyState).snd

/-! ### C2 — atomicity of rejection -/

/-- C2: every call of `issue`, `issuemore`, or `sendasset` that returns an
error leaves the whole state — every storage map, array, count, the nonce
(and the event list) — identical to its value before the call. -/
theorem step_error_state_unchanged (c : Call) (s : LedgerState) (e : String)
    (h : (step c s).fst = Except.error e) : (step c s).snd = s := by
  cases c with
  | issue seed sender name qty opn =>
    revert h
    simp only [step, issue]
    repeat' split
    all_goals intro h
    all_goals first | rfl | simp at h
  | issuemore sender assetId qty =>
    revert h
    simp only [step, issuemore]
    repeat' split
    all_goals intro h
    all_goals first | rfl | simp at h
  | sendasset sender toAcct assetId qty =>
    revert h
    simp only [step, sendasset]
    repeat' split
    all_goals intro h
    all_goals first | rfl | simp at h

/-- Witness for C2: `issuemore` on the empty ledger fails (`NotFound`) and
the post-state is exactly the empty ledger. -/
theorem step_error_state_unchanged_witness :
    (step (Call.issuemore 0 30 10) emptyState).fst =
        Except.error "This asset does not exist" ∧
      (step (Call.issuemore 0 30 10) emptyState).snd = emptyState :=
  ⟨rfl, step_error_state_unchanged (Call.issuemore 0 30 10) emptyState
    "This asset does not exist" rfl⟩

/-! ### C8 — identifier determinism -/

/-- C8: the asset identifier produced by a successful `issue` is a pure
function of the randomness seed, the caller, and the pre-state nonce: two
successful executions from states with equal nonce, with the same seed and
caller (and arbitrary names, quantities, flags), emit `Issued` events
carrying the same identifier. -/
theorem issue_id_deterministic (seed : Nat) (sender : Account)
    (n1 n2 : List Nat) (q1 q2 : Nat) (o1 o2 : Bool) (s1 s2 : LedgerState)
    (hn : s1.nonce = s2.nonce)
    (h1 : (issue seed sender n1 q1 o1 s1).fst = Except.ok ())
    (h2 : (issue seed sender n2 q2 o2 s2).fst = Except.ok ()) :
    (issue seed sender n1 q1 o1 s1).snd.events.head? =
        some (LedgerEvent.Issued sender (allocateId seed sender s1.nonce)) ∧
      (issue seed sender n2 q2 o2 s2).snd.events.head? =
        some (LedgerEvent.Issued sender (allocateId seed sender s1.nonce)) := by
  obtain ⟨a1, b1, c1, d1⟩ := issue_fst_ok _ _ _ _ _ _ h1
  obtain ⟨a2, b2, c2, d2⟩ := issue_fst_ok _ _ _ _ _ _ h2
  rw [issue_ok _ _ _ _ _ _ a1 b1 c1 d1, issue_ok _ _ _ _ _ _ a2 b2 c2 d2]
  constructor <;> simp [issuePost, hn]

/-- Witness for C8: two different issue calls (different name, quantity and
flag) from the empty ledger allocate the same identifier `30`. -/
theorem issue_id_deterministic_witness :
    emptyState.nonce = emptyState.nonce ∧
      (issue 5 0 [] 100 true emptyState).fst = Except.ok () ∧
      (issue 5 0 [7] 3 false emptyState).fst = Except.ok () ∧
      ((issue 5 0 [] 100 true emptyState).snd.events.head? =
          some (LedgerEvent.Issued 0 30) ∧
        (issue 5 0 [7] 3 false emptyState).snd.events.head? =
          some (LedgerEvent.Issued 0 30)) :=
  ⟨rfl, rfl, rfl,
    issue_id_deterministic 5 0 [] [7] 100 3 true false emptyState emptyState
      rfl rfl rfl⟩

/-! ### C9 — holding entries are never removed -/

lemma step_myAssetsIndex_mono (c : Call) (s : LedgerState) (holder : Account)
    (assetId : AHash) (h : (s.myAssetsIndex (holder, assetId)).isSome = true) :
    ((step c s).snd.myAssetsIndex (holder, assetId)).isSome = true := by
  cases c with
  | issue seed sender name qty opn =>
    simp only [step, issue]
    repeat' split
    all_goals simp only [upd]
    all_goals try split
    all_goals simp [h]
  | issuemore sender assetId' qty =>
    simp only [step, issuemore]
    repeat' split
    all_goals simp [h]
  | sendasset sender toAcct assetId' qty =>
    simp only [step, sendasset]
    repeat' split
    all_goals simp only [upd]
    all_goals try split
    all_goals simp [h]

/-- C9: once a holder has a per-holder enumeration index entry for an asset,
no sequence of calls — successful or failed — removes it. -/
theorem holding_entry_persists (cs : List Call) (s : LedgerState)
    (holder : Account) (assetId : AHash)
    (h : (s.myAssetsIndex (holder, assetId)).isSome = true) :
    ((runCalls cs s).myAssetsIndex (holder, assetId)).isSome = true := by
  induction cs generalizing s with
  | nil => simpa [runCalls] using h
  | cons c cs ih =>
    simpa [runCalls] using ih (step c s).snd
      (step_myAssetsIndex_mono c s holder assetId h)

/-- Witness for C9: account 0 sends its entire balance of asset 30 away (so
its balance drops to zero), then the asset is reissued and transferred
again; account 0's holding entry still exists. -/
theorem holding_entry_persists_witness :
    (sOpen.myAssetsIndex (0, 30)).isSome = true ∧
      ((runCalls [Call.sendasset 0 1 30 100, Call.issuemore 0 30 7,
          Call.sendasset 0 1 30 7] sOpen).myAssetsIndex (0, 30)).isSome = true :=
  ⟨by decide, holding_entry_persists _ sOpen 0 30 (by decide)⟩

/-! ### C7 — frame effect of issuemore -/

/-- C7: a successful `issuemore` modifies only `total_issued[asset_id]` and
`balance[(caller, asset_id)]`: the asset registry (hence the `open` flag),
the owner map, the nonce, all three enumerations (arrays, counts, reverse
indices), every other total, and every other balance are unchanged. -/
theorem issuemore_frame (sender : Account) (assetId : AHash) (qty : Nat)
    (s : LedgerState)
    (h : (issuemore sender assetId qty s).fst = Except.ok ()) :
    ((issuemore sender assetId qty s).snd.assets = s.assets ∧
        (issuemore sender assetId qty s).snd.assetOwner = s.assetOwner ∧
        (issuemore sender assetId qty s).snd.allAssetsArray = s.allAssetsArray ∧
        (issuemore sender assetId qty s).snd.allAssetsCount = s.allAssetsCount ∧
        (issuemore sender assetId qty s).snd.allAssetsIndex = s.allAssetsIndex ∧
        (issuemore sender assetId qty s).snd.ownedAssetsArray = s.ownedAssetsArray ∧
        (issuemore sender assetId qty s).snd.ownedAssetsCount = s.ownedAssetsCount ∧
        (issuemore sender assetId qty s).snd.ownedAssetsIndex = s.ownedAssetsIndex ∧
        (issuemore sender assetId qty s).snd.nonce = s.nonce ∧
        (issuemore sender assetId qty s).snd.myAssetsArray = s.myAssetsArray ∧
        (issuemore sender assetId qty s).snd.myAssetsCount = s.myAssetsCount ∧
        (issuemore sender assetId qty s).snd.myAssetsIndex = s.myAssetsIndex) ∧
      (∀ h' : AHash, h' ≠ assetId →
        (issuemore sender assetId qty s).snd.totalIssuedAssets h' =
          s.totalIssuedAssets h') ∧
      (∀ p : Account × AHash, p ≠ (sender, assetId) →
        (issuemore sender assetId qty s).snd.myAssetBalances p =
          s.myAssetBalances p) := by
  obtain ⟨h1, h2, h3, h4, h5⟩ := issuemore_fst_ok _ _ _ _ h
  rw [issuemore_ok _ _ _ _ h1 h2 h3 h4 h5]
  refine ⟨⟨rfl, rfl, rfl, rfl, rfl, rfl, rfl, rfl, rfl, rfl, rfl, rfl⟩, ?_, ?_⟩
  · intro h' hne
    exact upd_ne _ _ _ _ hne
  · intro p hne
    exact upd_ne _ _ _ _ hne

/-- Witness for C7: reissuing 7 units of asset 30 leaves the nonce, the
per-holder index map, an unrelated total and an unrelated balance unchanged. -/
theorem issuemore_frame_witness :
    (issuemore 0 30 7 sOpen).fst = Except.ok () ∧
      (issuemore 0 30 7 sOpen).snd.nonce = sOpen.nonce ∧
      (issuemore 0 30 7 sOpen).snd.myAssetsIndex = sOpen.myAssetsIndex ∧
      (issuemore 0 30 7 sOpen).snd.totalIssuedAssets 31 = sOpen.totalIssuedAssets 31 ∧
      (issuemore 0 30 7 sOpen).snd.myAssetBalances (1, 30) = sOpen.myAssetBalances (1, 30) := by
  obtain ⟨⟨e1, e2, e3, e4, e5, e6, e7, e8, e9, e10, e11, e12⟩, ht, hb⟩ :=
    issuemore_frame 0 30 7 sOpen rfl
  exact ⟨rfl, e9, e12, ht 31 (by decide), hb (1, 30) (by decide)⟩

/-! ### C5 — reissue gating (corrected) -/

/-- C5 counterexample: on the closed asset 30 a non-owner caller (account 1)
gets `NotOwner` ("You do not own this asset"), not `NotOpenForIssuance`
("You can not issue more"), so the claim's first half — failure with
`NotOpenForIssuance` regardless of caller — is false. -/
theorem issuemore_closed_nonowner_counterexample :
    ((sClosed.assets 30).getD default).opn = false ∧
      sClosed.assetOwner 30 = some 0 ∧
      (issuemore 1 30 10 sClosed).fst = Except.error "You do not own this asset" ∧
      "You do not own this asset" ≠ "You can not issue more" :=
  ⟨by decide, by decide, rfl, by decide⟩

/-- C5 (amended: the `NotOpenForIssuance` half holds for the owner as
caller; any other caller on an existing, owned asset gets `NotOwner`):
`issuemore` on a closed asset by its owner fails with `NotOpenForIssuance`,
and `issuemore` by a non-owner always fails with `NotOwner`. -/
theorem issuemore_gating (sender owner : Account) (assetId : AHash) (qty : Nat)
    (s : LedgerState) :
    (((s.assets assetId).isSome = true → s.assetOwner assetId = some sender →
        ((s.assets assetId).getD default).opn = false →
        (issuemore sender assetId qty s).fst =
          Except.error "You can not issue more")) ∧
      ((s.assets assetId).isSome = true → s.assetOwner assetId = some owner →
        owner ≠ sender →
        (issuemore sender assetId qty s).fst =
          Except.error "You do not own this asset") := by
  constructor
  · intro h1 h2 h3
    simp [issuemore, h1, h2, h3]
  · intro h1 h2 h3
    simp [issuemore, h1, h2, h3]

/-- Witness for C5 (amended): on the closed asset 30, the owner (account 0)
gets `NotOpenForIssuance` and a non-owner (account 1) gets `NotOwner`. -/
theorem issuemore_gating_witness :
    (sClosed.assets 30).isSome = true ∧
      sClosed.assetOwner 30 = some 0 ∧
      ((sClosed.assets 30).getD default).opn = false ∧
      (0 : Account) ≠ 1 ∧
      (issuemore 0 30 10 sClosed).fst = Except.error "You can not issue more" ∧
      (issuemore 1 30 10 sClosed).fst = Except.error "You do not own this asset" :=
  ⟨by decide, by decide, by decide, by decide,
    (issuemore_gating 0 0 30 10 sClosed).1 (by decide) (by decide) (by decide),
    (issuemore_gating 1 0 30 10 sClosed).2 (by decide) (by decide) (by decide)⟩

/-! ### C3 — transfer correctness (corrected) -/

/-- C3 counterexample: with sender = recipient (account 0, balance 100,
quantity 40) `sendasset` succeeds but the sender's final balance is 140, not
`B - Q = 60`, so the claim as stated fails when the recipient equals the
sender. -/
theorem sendasset_self_counterexample :
    (sOpen.myAssetsIndex (0, 30)).isSome = true ∧
      sOpen.myAssetBalances (0, 30) = 100 ∧
      (sendasset 0 0 30 40 sOpen).fst = Except.ok () ∧
      (sendasset 0 0 30 40 sOpen).snd.myAssetBalances (0, 30) ≠ 100 - 40 :=
  ⟨by decide, by decide, rfl, by decide⟩

/-- C3 (amended: recipient distinct from sender): a successful
`sendasset(sender, recipient, asset, Q)` with sender holding entry and
balance `B ≥ Q` yields sender balance `B - Q`, recipient balance
`old + Q` (old read as 0 when the recipient had no holding entry), and
leaves every other account's balance for that asset unchanged. -/
theorem sendasset_transfer_correct (sender toAcct : Account) (assetId : AHash)
    (qty : Nat) (s : LedgerState)
    (hne : toAcct ≠ sender)
    (hidx : (s.myAssetsIndex (sender, assetId)).isSome = true)
    (hbal : qty ≤ s.myAssetBalances (sender, assetId))
    (hok : (sendasset sender toAcct assetId qty s).fst = Except.ok ()) :
    (sendasset sender toAcct assetId qty s).snd.myAssetBalances (sender, assetId) =
        s.myAssetBalances (sender, assetId) - qty ∧
      (sendasset sender toAcct assetId qty s).snd.myAssetBalances (toAcct, assetId) =
        (if (s.myAssetsIndex (toAcct, assetId)).isSome = true
          then s.myAssetBalances (toAcct, assetId) else 0) + qty ∧
      (∀ a : Account, a ≠ sender → a ≠ toAcct →
        (sendasset sender toAcct assetId qty s).snd.myAssetBalances (a, assetId) =
          s.myAssetBalances (a, assetId)) := by
  have hpairST : ((sender, assetId) : Account × AHash) ≠ (toAcct, assetId) :=
    fun hc => (Ne.symm hne) (congrArg Prod.fst hc)
  obtain ⟨h1, h2, h3, h4⟩ := sendasset_fst_ok _ _ _ _ _ hok
  by_cases hflg : (s.myAssetsIndex (toAcct, assetId)).isSome = true
  · rw [sendasset_ok_existing _ _ _ _ _ h1 h2 hflg (by simpa [hflg] using h3)]
    refine ⟨?_, ?_, ?_⟩
    · show (upd (upd _ _ _) _ _) _ = _
      rw [upd_ne _ _ _ _ hpairST, upd_same]
    · show (upd (upd _ _ _) _ _) _ = _
      rw [upd_same, if_pos hflg]
    · intro a ha1 ha2
      show (upd (upd _ _ _) _ _) _ = _
      rw [upd_ne _ _ _ _ (fun hc => ha2 (congrArg Prod.fst hc)),
        upd_ne _ _ _ _ (fun hc => ha1 (congrArg Prod.fst hc))]
  · have hflg' : (s.myAssetsIndex (toAcct, assetId)).isSome = false := by
      simpa using hflg
    rw [sendasset_ok_new _ _ _ _ _ h1 h2 hflg' (by simpa [hflg'] using h3)
      (h4 hflg')]
    refine ⟨?_, ?_, ?_⟩
    · show (upd (upd _ _ _) _ _) _ = _
      rw [upd_ne _ _ _ _ hpairST, upd_same]
    · show (upd (upd _ _ _) _ _) _ = _
      rw [upd_same, if_neg (by simp [hflg'])]
    · intro a ha1 ha2
      show (upd (upd _ _ _) _ _) _ = _
      rw [upd_ne _ _ _ _ (fun hc => ha2 (congrArg Prod.fst hc)),
        upd_ne _ _ _ _ (fun hc => ha1 (congrArg Prod.fst hc))]

/-- Witness for C3 (amended): account 0 sends 40 of asset 30 to account 1;
account 0 ends at 60, account 1 at 40, account 2 unchanged. -/
theorem sendasset_transfer_correct_witness :
    (1 : Account) ≠ 0 ∧
      (sOpen.myAssetsIndex (0, 30)).isSome = true ∧
      40 ≤ sOpen.myAssetBalances (0, 30) ∧
      (sendasset 0 1 30 40 sOpen).fst = Except.ok () ∧
      (sendasset 0 1 30 40 sOpen).snd.myAssetBalances (0, 30) =
        sOpen.myAssetBalances (0, 30) - 40 ∧
      (sendasset 0 1 30 40 sOpen).snd.myAssetBalances (1, 30) =
        (if (sOpen.myAssetsIndex (1, 30)).isSome = true
          then sOpen.myAssetBalances (1, 30) else 0) + 40 ∧
      (sendasset 0 1 30 40 sOpen).snd.myAssetBalances (2, 30) =
        sOpen.myAssetBalances (2, 30) := by
  obtain ⟨c1, c2, c3⟩ :=
    sendasset_transfer_correct 0 1 30 40 sOpen (by decide) (by decide)
      (by decide) rfl
  exact ⟨by decide, by decide, by decide, rfl, c1, c2, c3 2 (by decide) (by decide)⟩

/-! ### C6 — self-transfer (corrected) -/

/-- A one-asset ledger where account 0 holds the u64-maximal balance. -/
def sMaxBal : LedgerState := (issue 5 0 [] (U64LIMIT - 1) true emptyState).snd

/-- C6 counterexample: a self-transfer of the full u64-maximal balance
(entry exists and `B ≥ Q`) does not succeed — the credit-side checked
addition `B + Q` overflows — so the claim's unconditional success fails. -/
theorem sendasset_self_overflow_counterexample :
    (sMaxBal.myAssetsIndex (0, 30)).isSome = true ∧
      U64LIMIT - 1 ≤ sMaxBal.myAssetBalances (0, 30) ∧
      (sendasset 0 0 30 (U64LIMIT - 1) sMaxBal).fst =
        Except.error "Overflow adding (to)'s asset" :=
  ⟨by decide, by decide, rfl⟩

/-- C6 (amended with the checked-addition bound `B + Q < 2^64`): a
self-transfer by a caller with a holding entry and balance `B ≥ Q` succeeds
and leaves the caller's balance at `B + Q` — the credit write overwrites
the debit write — while the asset's total issued is unchanged. -/
theorem sendasset_self_transfer (caller : Account) (assetId : AHash)
    (qty : Nat) (s : LedgerState)
    (hidx : (s.myAssetsIndex (caller, assetId)).isSome = true)
    (hbal : qty ≤ s.myAssetBalances (caller, assetId))
    (hov : s.myAssetBalances (caller, assetId) + qty < U64LIMIT) :
    (sendasset caller caller assetId qty s).fst = Except.ok () ∧
      (sendasset caller caller assetId qty s).snd.myAssetBalances (caller, assetId) =
        s.myAssetBalances (caller, assetId) + qty ∧
      (sendasset caller caller assetId qty s).snd.totalIssuedAssets =
        s.totalIssuedAssets := by
  rw [sendasset_ok_existing caller caller assetId qty s hidx hbal hidx hov]
  refine ⟨rfl, ?_, rfl⟩
  show (upd (upd _ _ _) _ _) _ = _
  rw [upd_same]

/-- Witness for C6 (amended): account 0 self-sends 40 of asset 30 from
balance 100 and ends with 140 while total issued stays 100. -/
theorem sendasset_self_transfer_witness :
    (sOpen.myAssetsIndex (0, 30)).isSome = true ∧
      40 ≤ sOpen.myAssetBalances (0, 30) ∧
      sOpen.myAssetBalances (0, 30) + 40 < U64LIMIT ∧
      (sendasset 0 0 30 40 sOpen).fst = Except.ok () ∧
      (sendasset 0 0 30 40 sOpen).snd.myAssetBalances (0, 30) =
        sOpen.myAssetBalances (0, 30) + 40 ∧
      (sendasset 0 0 30 40 sOpen).snd.totalIssuedAssets =
        sOpen.totalIssuedAssets := by
  obtain ⟨c1, c2, c3⟩ :=
    sendasset_self_transfer 0 30 40 sOpen (by decide) (by decide) (by decide)
  exact ⟨by decide, by decide, by decide, c1, c2, c3⟩

/-! ### C10 — zero-quantity transfer (corrected) -/

/-- A ledger in which the prospective recipient (account 1) already has the
u64-maximal holding count. -/
def sBigCount : LedgerState :=
  { sOpen with myAssetsCount := upd sOpen.myAssetsCount 1 (U64LIMIT - 1) }

/-- C10 counterexample: a zero-quantity transfer to a fresh recipient whose
holding count is at the u64 maximum fails with `Overflow` instead of
succeeding, so the claim's unconditional success fails. -/
theorem sendasset_zero_qty_counterexample :
    (sBigCount.myAssetsIndex (0, 30)).isSome = true ∧
      (1 : Account) ≠ 0 ∧
      (sendasset 0 1 30 0 sBigCount).fst =
        Except.error "Overflow adding a new My Asset to total supply" :=
  ⟨by decide, by decide, rfl⟩

/-- C10 (amended with the u64 bounds the counterexample forces: the
recipient's stored balance is a valid u64 when it has an entry, and when it
has none its holding count is not at the u64 maximum): a zero-quantity
`sendasset` by a caller with a holding entry succeeds, and when the
recipient had no holding entry it gains one — index entry at position
`count`, balance 0, asset appended to its array, count incremented. -/
theorem sendasset_zero_qty (sender toAcct : Account) (assetId : AHash)
    (s : LedgerState)
    (hne : toAcct ≠ sender)
    (hidx : (s.myAssetsIndex (sender, assetId)).isSome = true)
    (hbal : (s.myAssetsIndex (toAcct, assetId)).isSome = true →
      s.myAssetBalances (toAcct, assetId) < U64LIMIT)
    (hcnt : (s.myAssetsIndex (toAcct, assetId)).isSome = false →
      s.myAssetsCount toAcct + 1 < U64LIMIT) :
    (sendasset sender toAcct assetId 0 s).fst = Except.ok () ∧
      ((s.myAssetsIndex (toAcct, assetId)).isSome = false →
        (sendasset sender toAcct assetId 0 s).snd.myAssetsIndex (toAcct, assetId) =
            some (s.myAssetsCount toAcct) ∧
          (sendasset sender toAcct assetId 0 s).snd.myAssetBalances (toAcct, assetId) = 0 ∧
          (sendasset sender toAcct assetId 0 s).snd.myAssetsArray
            (toAcct, s.myAssetsCount toAcct) = assetId ∧
          (sendasset sender toAcct assetId 0 s).snd.myAssetsCount toAcct =
            s.myAssetsCount toAcct + 1) := by
  cases hflg : (s.myAssetsIndex (toAcct, assetId)).isSome with
  | true =>
    rw [sendasset_ok_existing _ _ _ _ _ hidx (Nat.zero_le _) hflg
      (by simpa using hbal hflg)]
    exact ⟨rfl, fun hc => by simp [hflg] at hc⟩
  | false =>
    rw [sendasset_ok_new _ _ _ _ _ hidx (Nat.zero_le _) hflg
      (by simp [U64LIMIT]) (hcnt hflg)]
    refine ⟨rfl, fun _ => ⟨?_, ?_, ?_, ?_⟩⟩
    · exact upd_same _ _ _
    · show (upd (upd _ _ _) _ _) _ = _
      rw [upd_same]
    · exact upd_same _ _ _
    · exact upd_same _ _ _

/-- Witness for C10 (amended): a zero-quantity transfer from account 0 to
the fresh account 1 succeeds and creates account 1's holding entry for
asset 30 with balance 0 and count 1. -/
theorem sendasset_zero_qty_witness :
    (1 : Account) ≠ 0 ∧
      (sOpen.myAssetsIndex (0, 30)).isSome = true ∧
      (sOpen.myAssetsIndex (1, 30)).isSome = false ∧
      (sendasset 0 1 30 0 sOpen).fst = Except.ok () ∧
      (sendasset 0 1 30 0 sOpen).snd.myAssetsIndex (1, 30) =
        some (sOpen.myAssetsCount 1) ∧
      (sendasset 0 1 30 0 sOpen).snd.myAssetBalances (1, 30) = 0 ∧
      (sendasset 0 1 30 0 sOpen).snd.myAssetsArray (1, sOpen.myAssetsCount 1) = 30 ∧
      (sendasset 0 1 30 0 sOpen).snd.myAssetsCount 1 = sOpen.myAssetsCount 1 + 1 := by
  obtain ⟨c1, c2⟩ :=
    sendasset_zero_qty 0 1 30 sOpen (by decide) (by decide)
      (by decide) (by decide)
  obtain ⟨d1, d2, d3, d4⟩ := c2 (by decide)
  exact ⟨by decide, by decide, by decide, c1, d1, d2, d3, d4⟩

/-! ### C4 — issue postconditions -/

/-- Number of positions `i < n` of an enumeration array at which the stored
asset id equals `h`. -/
def occurrences (f : Nat → AHash) (n : Nat) (h : AHash) : Nat :=
  List.countP (fun i => f i == h) (List.range n)

lemma occurrences_eq_zero (f : Nat → AHash) (n : Nat) (h : AHash)
    (hf : ∀ i, i < n → f i ≠ h) : occurrences f n h = 0 := by
  apply List.countP_eq_zero.mpr
  intro i hi
  simpa using hf i (List.mem_range.mp hi)

lemma occurrences_succ (f : Nat → AHash) (n : Nat) (h : AHash) :
    occurrences f (n + 1) h =
      occurrences f n h + (if f n = h then 1 else 0) := by
  unfold occurrences
  rw [List.range_succ, List.countP_append]
  by_cases hn : f n = h
  · simp [List.countP, List.countP.go, hn]
  · have hb : (f n == h) = false := by simpa using hn
    simp [List.countP, List.countP.go, hn, hb]

lemma occurrences_upd_fresh (f : Nat → AHash) (n : Nat) (h : AHash)
    (hf : ∀ i, i < n → f i ≠ h) : occurrences (upd f n h) (n + 1) h = 1 := by
  rw [occurrences_succ, occurrences_eq_zero (upd f n h) n h, upd_same, if_pos rfl]
  intro i hi
  rw [upd_ne f n h i (Nat.ne_of_lt hi)]
  exact hf i hi

lemma curry_upd_pair {α : Type} [DecidableEq α] (g : α × Nat → AHash) (a : α)
    (c : Nat) (v : AHash) :
    (fun i => upd g (a, c) v (a, i)) = upd (fun i => g (a, i)) c v := by
  funext i
  by_cases hi : i = c
  · subst hi
    rw [upd_same, upd_same]
  · rw [upd_ne _ _ _ _ (by simp [hi]), upd_ne _ _ _ _ hi]

/-- C4: a successful `issue(caller, name, Q, open)` allocates a fresh id not
previously registered, sets the caller's balance and the total issued to
`Q`, increments the global, per-issuer, and per-holder counts by one, and
the new id appears exactly once in each of the three enumerations (stated
under the reachable-state well-formedness hypothesis that every id already
enumerated is registered in the owner map). -/
theorem issue_postconditions (seed : Nat) (sender : Account) (name : List Nat)
    (issueQty : Nat) (opn : Bool) (s : LedgerState)
    (wfAll : ∀ i, i < s.allAssetsCount →
      (s.assetOwner (s.allAssetsArray i)).isSome = true)
    (wfOwned : ∀ i, i < s.ownedAssetsCount sender →
      (s.assetOwner (s.ownedAssetsArray (sender, i))).isSome = true)
    (wfMy : ∀ i, i < s.myAssetsCount sender →
      (s.assetOwner (s.myAssetsArray (sender, i))).isSome = true)
    (hok : (issue seed sender name issueQty opn s).fst = Except.ok ()) :
    s.assetOwner (allocateId seed sender s.nonce) = none ∧
      (issue seed sender name issueQty opn s).snd.myAssetBalances
        (sender, allocateId seed sender s.nonce) = issueQty ∧
      (issue seed sender name issueQty opn s).snd.totalIssuedAssets
        (allocateId seed sender s.nonce) = issueQty ∧
      (issue seed sender name issueQty opn s).snd.allAssetsCount =
        s.allAssetsCount + 1 ∧
      (issue seed sender name issueQty opn s).snd.ownedAssetsCount sender =
        s.ownedAssetsCount sender + 1 ∧
      (issue seed sender name issueQty opn s).snd.myAssetsCount sender =
        s.myAssetsCount sender + 1 ∧
      occurrences (issue seed sender name issueQty opn s).snd.allAssetsArray
        (issue seed sender name issueQty opn s).snd.allAssetsCount
        (allocateId seed sender s.nonce) = 1 ∧
      occurrences
        (fun i => (issue seed sender name issueQty opn s).snd.ownedAssetsArray (sender, i))
        ((issue seed sender name issueQty opn s).snd.ownedAssetsCount sender)
        (allocateId seed sender s.nonce) = 1 ∧
      occurrences
        (fun i => (issue seed sender name issueQty opn s).snd.myAssetsArray (sender, i))
        ((issue seed sender name issueQty opn s).snd.myAssetsCount sender)
        (allocateId seed sender s.nonce) = 1 := by
  obtain ⟨h1, h2, h3, h4⟩ := issue_fst_ok _ _ _ _ _ _ hok
  have hfresh : ∀ h' : AHash, s.assetOwner h' = none →
      ∀ i, (s.assetOwner (s.allAssetsArray i)).isSome = true →
      s.allAssetsArray i ≠ h' := by
    intro h' hnone i hsome hc
    rw [hc, hnone] at hsome
    simp at hsome
  rw [issue_ok _ _ _ _ _ _ h1 h2 h3 h4]
  refine ⟨h3, upd_same _ _ _, upd_same _ _ _, rfl, upd_same _ _ _,
    upd_same _ _ _, ?_, ?_, ?_⟩
  · show occurrences (upd s.allAssetsArray s.allAssetsCount _) (s.allAssetsCount + 1) _ = 1
    apply occurrences_upd_fresh
    intro i hi hc
    have := wfAll i hi
    rw [hc, h3] at this
    simp at this
  · show occurrences (fun i => upd s.ownedAssetsArray (sender, s.ownedAssetsCount sender) _ (sender, i))
      (upd s.ownedAssetsCount sender (s.ownedAssetsCount sender + 1) sender) _ = 1
    rw [curry_upd_pair, upd_same]
    apply occurrences_upd_fresh
    intro i hi hc
    have := wfOwned i hi
    rw [hc, h3] at this
    simp at this
  · show occurrences (fun i => upd s.myAssetsArray (sender, s.myAssetsCount sender) _ (sender, i))
      (upd s.myAssetsCount sender (s.myAssetsCount sender + 1) sender) _ = 1
    rw [curry_upd_pair, upd_same]
    apply occurrences_upd_fresh
    intro i hi hc
    have := wfMy i hi
    rw [hc, h3] at this
    simp at this

/-- Witness for C4: issuing 100 units from the empty ledger registers the
fresh id 30 with balance and total 100, count 1, and a single occurrence in
each of the three enumerations. -/
theorem issue_postconditions_witness :
    (issue 5 0 [] 100 true emptyState).fst = Except.ok () ∧
      emptyState.assetOwner 30 = none ∧
      (issue 5 0 [] 100 true emptyState).snd.myAssetBalances (0, 30) = 100 ∧
      (issue 5 0 [] 100 true emptyState).snd.totalIssuedAssets 30 = 100 ∧
      (issue 5 0 [] 100 true emptyState).snd.allAssetsCount =
        emptyState.allAssetsCount + 1 ∧
      occurrences (issue 5 0 [] 100 true emptyState).snd.allAssetsArray
        (issue 5 0 [] 100 true emptyState).snd.allAssetsCount 30 = 1 ∧
      occurrences
        (fun i => (issue 5 0 [] 100 true emptyState).snd.ownedAssetsArray (0, i))
        ((issue 5 0 [] 100 true emptyState).snd.ownedAssetsCount 0) 30 = 1 ∧
      occurrences
        (fun i => (issue 5 0 [] 100 true emptyState).snd.myAssetsArray (0, i))
        ((issue 5 0 [] 100 true emptyState).snd.myAssetsCount 0) 30 = 1 := by
  obtain ⟨f, b, t, ca, co, cm, o1, o2, o3⟩ :=
    issue_postconditions 5 0 [] 100 true emptyState
      (fun i hi => absurd hi (Nat.not_lt_zero i))
      (fun i hi => absurd hi (Nat.not_lt_zero i))
      (fun i hi => absurd hi (Nat.not_lt_zero i)) rfl
  exact ⟨rfl, f, b, t, ca, o1, o2, o3⟩

/-! ### C1 — conservation (violated by self-transfer) -/

/-- The state reached from the empty ledger by the two successful calls
`issue(qty 100, open)` by account 0 and `sendasset(0, 0, 30, 40)`. -/
def sMinted : LedgerState :=
  runCalls [Call.issue 5 0 [] 100 true, Call.sendasset 0 0 30 40] emptyState

/-- C1 (refuted on the code): in the reachable state `sMinted` — produced
by two successful calls, an issue of 100 and a self-transfer of 40 — the
only non-zero balance of asset 30 is account 0's, and it is 140 while total
issued is 100, so the sum of balances over all holders (140) differs from
the total issued (100). -/
theorem conservation_violated :
    (step (Call.issue 5 0 [] 100 true) emptyState).fst = Except.ok () ∧
      (step (Call.sendasset 0 0 30 40)
        (step (Call.issue 5 0 [] 100 true) emptyState).snd).fst = Except.ok () ∧
      sMinted.totalIssuedAssets 30 = 100 ∧
      (∀ a : Account,
        sMinted.myAssetBalances (a, 30) = if a = 0 then 140 else 0) ∧
      sMinted.myAssetBalances (0, 30) ≠ sMinted.totalIssuedAssets 30 := by
  have hbal : sMinted.myAssetBalances =
      upd (upd (upd (fun _ => 0) ((0 : Account), (30 : AHash)) 100) (0, 30) 60)
        (0, 30) 140 := rfl
  refine ⟨rfl, rfl, by decide, ?_, by decide⟩
  intro a
  rw [hbal]
  by_cases ha : a = 0
  · subst ha
    rw [upd_same, if_pos rfl]
  · rw [if_neg ha,
      upd_ne _ _ _ _ (fun hc => ha (congrArg Prod.fst hc)),
      upd_ne _ _ _ _ (fun hc => ha (congrArg Prod.fst hc)),
      upd_ne _ _ _ _ (fun hc => ha (congrArg Prod.fst hc))]
